import Mathlib

set_option maxRecDepth 40000

/-!
Shallow embedding of the Africa's Talking IVR call-flow service
(`src/main.py` and `src/utils/helper.py`).

The `VoiceHelper` fragment builders are pure string functions and are embedded
directly.  Each FastAPI route handler is embedded as a pure function of the
request's form fields (each an `Option String`, `None` when the field is
absent) and of the configured base URL `APP_URL`; `print` logging and the
carrier-SDK initialisation do not influence any response and are not modelled.
Python truthiness of an `Optional[str]` (`not pressed_key`) holds exactly when
the value is `None` or the empty string, and is written out as
`x = none ∨ x = some ""` at each use site.
-/

/-- Transport-level response (`fastapi.responses.Response`): status code,
optional media type, body.  Handlers build either a 200 `text/xml` response or
the empty 204 response. -/
structure HttpResponse where
  status : Nat
  mediaType : Option String
  body : String
deriving DecidableEq

/-- `VoiceHelper.saySomething` (src/utils/helper.py:25-36): returns
`f"<Say>{speech}</Say>"` where `speech = options.get('speech', '')`.  The
handlers always pass a dict with a `'speech'` key, so the function is modelled
on that value directly. -/
def saySomething (speech : String) : String :=
  "<Say>" ++ speech ++ "</Say>"

/-- `VoiceHelper.ongea` (src/utils/helper.py:38-54): a Say fragment for the
prompt followed by a CollectDigits tag carrying `timeout`, `finishOnKey` and
`callbackUrl` (no `numDigits` attribute). -/
def ongea (textPrompt : String) (finishOnKey : String) (timeout : Nat)
    (callbackUrl : String) : String :=
  ("<Say>" ++ textPrompt ++ "</Say>") ++
    ("<CollectDigits timeout='" ++ toString timeout ++ "' finishOnKey='" ++
      finishOnKey ++ "' callbackUrl='" ++ callbackUrl ++ "'/>")

/-- `VoiceHelper.recordAudio` (src/utils/helper.py:56-73): a Say fragment for
`introductionText` followed by a Record tag with fixed `finishOnKey='#'`,
`maxLength='60'`, `playBeep='true'` and the given `audioProcessingUrl` as
`callbackUrl`.  The handlers always pass both dict keys, so the two values are
taken as direct arguments. -/
def recordAudio (introductionText : String) (audioProcessingUrl : String) : String :=
  ("<Say>" ++ introductionText ++ "</Say>") ++
    ("<Record finishOnKey='#' maxLength='60' playBeep='true' callbackUrl='" ++
      audioProcessingUrl ++ "'/>")

/-- `create_xml_response` (src/main.py:30-32): wraps the rendered actions in
the XML declaration and the `Response` root element. -/
def create_xml_response (content : String) : String :=
  "<?xml version='1.0' encoding='UTF-8'?><Response>" ++ content ++ "</Response>"

/-- The 200 `text/xml` response every handler returns on its normal path:
`Response(content=create_xml_response(call_actions), media_type="text/xml")`. -/
def xmlResponse (content : String) : HttpResponse :=
  { status := 200, mediaType := some "text/xml", body := create_xml_response content }

/-- The no-op response `Response(content="", status_code=204)` used when a
required caller input is absent. -/
def noContent : HttpResponse :=
  { status := 204, mediaType := none, body := "" }

/-- Python `responses.get(pressed_key, dflt)` for an association-list dict and
a `pressed_key : Optional[str]`: `None` is never a key, so it yields the
default. -/
def dictGet (responses : List (String × String)) (key : Option String)
    (dflt : String) : String :=
  match key with
  | none => dflt
  | some k => (List.lookup k responses).getD dflt

/-- `voice_entry` handler for POST `/voice` (src/main.py:35-56): always emits
the fixed greeting Say plus a CollectDigits tag (assembled inline, not via the
helper) targeting `{APP_URL}/voice/language`. -/
def voice_entry (appUrl : String) (sessionId callerNumber : Option String) :
    HttpResponse :=
  xmlResponse
    ("<Say>Welcome to Ongea Emergency Services! Press 1 for English or 2 for Swahili.</Say><CollectDigits timeout='10' finishOnKey='#' numDigits='1' callbackUrl='" ++
      appUrl ++ "/voice/language'/>")

/-- `language_selection` handler for POST `/voice/language`
(src/main.py:59-92): `if not pressed_key or pressed_key not in ["1", "2"]`
emits the invalid-selection Say, otherwise the service menu prompt targeting
`{APP_URL}/service/selection`. -/
def language_selection (appUrl : String)
    (dtmfDigits sessionId callerNumber : Option String) : HttpResponse :=
  if dtmfDigits = none ∨ dtmfDigits = some "" ∨
      (dtmfDigits ≠ some "1" ∧ dtmfDigits ≠ some "2") then
    xmlResponse (saySomething "Invalid selection. Please try again.")
  else
    xmlResponse
      (ongea "Welcome to Ongea Emergency Services. Press 1 to report hunger, press 2 to report water shortage, press 3 for medical emergency."
        "#" 10 (appUrl ++ "/service/selection"))

/-- `service_selection` handler for POST `/service/selection`
(src/main.py:95-153): missing/empty input is the 204 no-op; "1"/"2"/"3" emit
the category prompt targeting the respective region route; anything else emits
the invalid-selection Say. -/
def service_selection (appUrl : String)
    (dtmfDigits sessionId callerNumber : Option String) : HttpResponse :=
  if dtmfDigits = none ∨ dtmfDigits = some "" then
    noContent
  else if dtmfDigits = some "1" then
    xmlResponse
      (ongea "Thank you for reporting hunger. Please select your region: Press 1 for Nairobi, 2 for Turkana, 3 for Kiambu."
        "#" 15 (appUrl ++ "/hunger/region"))
  else if dtmfDigits = some "2" then
    xmlResponse
      (ongea "Thank you for reporting water shortage. Please select your region: Press 1 for Nairobi, 2 for Turkana, 3 for Kiambu."
        "#" 15 (appUrl ++ "/water/region"))
  else if dtmfDigits = some "3" then
    xmlResponse
      (ongea "Medical emergency reported. Please select your region: Press 1 for Nairobi, 2 for Turkana, 3 for Kiambu."
        "#" 15 (appUrl ++ "/emergency/region"))
  else
    xmlResponse (saySomething "Invalid selection. Please press 1, 2, or 3.")

/-- The `region_responses` dict of `hunger_region_selection`
(src/main.py:163-167). -/
def hunger_region_responses : List (String × String) :=
  [("1", "Thank you. Nairobi region office has been notified about the hunger situation. They will contact you shortly."),
   ("2", "Thank you. Turkana region office has been notified about the hunger situation. They will contact you shortly."),
   ("3", "Thank you. Kiambu region office has been notified about the hunger situation. They will contact you shortly.")]

/-- The `region_responses` dict of `water_region_selection`
(src/main.py:179-183). -/
def water_region_responses : List (String × String) :=
  [("1", "Thank you. Nairobi water department has been notified about the water shortage. They will address this issue."),
   ("2", "Thank you. Turkana water department has been notified about the water shortage. They will address this issue."),
   ("3", "Thank you. Kiambu water department has been notified about the water shortage. They will address this issue.")]

/-- `handle_region_response` (src/main.py:253-270): missing/empty input is the
204 no-op; otherwise a Say with the table entry for the key, defaulting to
"Invalid selection. Goodbye.". -/
def handle_region_response (pressed_key : Option String)
    (responses : List (String × String)) : HttpResponse :=
  if pressed_key = none ∨ pressed_key = some "" then
    noContent
  else
    xmlResponse (saySomething (dictGet responses pressed_key "Invalid selection. Goodbye."))

/-- `hunger_region_selection` handler for POST `/hunger/region`
(src/main.py:156-169). -/
def hunger_region_selection (dtmfDigits sessionId callerNumber : Option String) :
    HttpResponse :=
  handle_region_response dtmfDigits hunger_region_responses

/-- `water_region_selection` handler for POST `/water/region`
(src/main.py:172-185). -/
def water_region_selection (dtmfDigits sessionId callerNumber : Option String) :
    HttpResponse :=
  handle_region_response dtmfDigits water_region_responses

/-- The `regions` dict of `emergency_region_selection` (src/main.py:199). -/
def emergency_regions : List (String × String) :=
  [("1", "Nairobi"), ("2", "Turkana"), ("3", "Kiambu")]

/-- `emergency_region_selection` handler for POST `/emergency/region`
(src/main.py:188-220): on "1"/"2"/"3" looks up the region name and emits the
activation Say plus a Record targeting `{APP_URL}/emergency/recording`;
otherwise (including missing input) emits the invalid-selection Say.  Inside
the guard the key is always present, so the `regions[pressed_key]` indexing is
modelled by `dictGet` with an irrelevant default. -/
def emergency_region_selection (appUrl : String)
    (dtmfDigits sessionId callerNumber : Option String) : HttpResponse :=
  if dtmfDigits = some "1" ∨ dtmfDigits = some "2" ∨ dtmfDigits = some "3" then
    xmlResponse
      (recordAudio
        ("Emergency services for " ++ dictGet emergency_regions dtmfDigits "" ++
          " region activated. Please describe your emergency in detail and press hash when finished.")
        (appUrl ++ "/emergency/recording"))
  else
    xmlResponse (saySomething "Invalid selection. Please press 1, 2, or 3.")

/-- `emergency_recording_handler` for POST `/emergency/recording`
(src/main.py:223-250): unconditionally emits the closing acknowledgement Say;
the recording fields are only logged. -/
def emergency_recording_handler
    (recordingUrl durationInSeconds sessionId callerNumber : Option String) :
    HttpResponse :=
  xmlResponse
    (saySomething "Your emergency report has been recorded and sent to the appropriate authorities. Emergency services will respond shortly. Thank you for calling.")

/-- `ongea_special` handler for POST `/ongea` (src/main.py:274-308): `None` or
the literal "undefined" is the 204 no-op; exactly "2545" emits the
"Welcome Back" prompt targeting `{APP_URL}/emergency/region`; anything else
emits the "not valid" Say. -/
def ongea_special (appUrl : String) (dtmfDigits : Option String) : HttpResponse :=
  if dtmfDigits = none ∨ dtmfDigits = some "undefined" then
    noContent
  else if dtmfDigits = some "2545" then
    xmlResponse
      (ongea "Welcome Back to Medicare Services." "#" 15 (appUrl ++ "/emergency/region"))
  else
    xmlResponse (saySomething "The code entered is not valid.")

/-- The input-taking steps other than Entry and EmergencyRecording, by route. -/
inductive Step
  | languageSelect
  | serviceSelect
  | hungerRegion
  | waterRegion
  | emergencyRegion
  | diagnostic
deriving DecidableEq

/-- Dispatch a step identity to its handler (the Diagnostic route takes no
session fields). -/
def stepHandler (appUrl : String) (step : Step)
    (dtmfDigits sessionId callerNumber : Option String) : HttpResponse :=
  match step with
  | .languageSelect => language_selection appUrl dtmfDigits sessionId callerNumber
  | .serviceSelect => service_selection appUrl dtmfDigits sessionId callerNumber
  | .hungerRegion => hunger_region_selection dtmfDigits sessionId callerNumber
  | .waterRegion => water_region_selection dtmfDigits sessionId callerNumber
  | .emergencyRegion => emergency_region_selection appUrl dtmfDigits sessionId callerNumber
  | .diagnostic => ongea_special appUrl dtmfDigits

/-- Each step's valid-input set, per the call-flow table. -/
def validInputs : Step → List String
  | .languageSelect => ["1", "2"]
  | .serviceSelect => ["1", "2", "3"]
  | .hungerRegion => ["1", "2", "3"]
  | .waterRegion => ["1", "2", "3"]
  | .emergencyRegion => ["1", "2", "3"]
  | .diagnostic => ["2545"]

/-- Each step's fixed invalid-selection text. -/
def invalidText : Step → String
  | .languageSelect => "Invalid selection. Please try again."
  | .serviceSelect => "Invalid selection. Please press 1, 2, or 3."
  | .hungerRegion => "Invalid selection. Goodbye."
  | .waterRegion => "Invalid selection. Goodbye."
  | .emergencyRegion => "Invalid selection. Please press 1, 2, or 3."
  | .diagnostic => "The code entered is not valid."

/-- Number of (possibly overlapping) occurrences of `pat` in a character
list. -/
def countOcc (pat : List Char) : List Char → Nat
  | [] => 0
  | c :: rest => (if pat.isPrefixOf (c :: rest) then 1 else 0) + countOcc pat rest

/-- Number of occurrences of the pattern `pat` in the string `s`. -/
def sCount (s pat : String) : Nat := countOcc pat.data s.data

theorem append_split (a b ab : String) (h : ab = a ++ b) (x : String) :
    ab ++ x = a ++ (b ++ x) := by
  rw [h, String.append_assoc]

/-- C2: for the ServiceSelect, HungerRegion and WaterRegion steps, a missing
caller input (`dtmfDigits = None`) yields the no-op response: status 204,
empty body, no media type, and in particular no Say action. -/
theorem C2_missing_input_is_noop (appUrl : String)
    (sessionId callerNumber : Option String) :
    service_selection appUrl none sessionId callerNumber = noContent ∧
    hunger_region_selection none sessionId callerNumber = noContent ∧
    water_region_selection none sessionId callerNumber = noContent ∧
    noContent.status = 204 ∧ noContent.body = "" ∧ noContent.mediaType = none ∧
    sCount noContent.body "<Say>" = 0 :=
  ⟨rfl, rfl, rfl, rfl, rfl, rfl, rfl⟩

/-- C10: for the ServiceSelect, HungerRegion and WaterRegion steps, an input
that is present but equal to the empty string is treated exactly like missing
input: the handler returns the 204 no-op, not the invalid-selection Say. -/
theorem C10_empty_string_is_noop (appUrl : String)
    (sessionId callerNumber : Option String) :
    service_selection appUrl (some "") sessionId callerNumber = noContent ∧
    hunger_region_selection (some "") sessionId callerNumber = noContent ∧
    water_region_selection (some "") sessionId callerNumber = noContent ∧
    service_selection appUrl (some "") sessionId callerNumber ≠
      xmlResponse (saySomething "Invalid selection. Please press 1, 2, or 3.") ∧
    hunger_region_selection (some "") sessionId callerNumber ≠
      xmlResponse (saySomething "Invalid selection. Goodbye.") ∧
    water_region_selection (some "") sessionId callerNumber ≠
      xmlResponse (saySomething "Invalid selection. Goodbye.") :=
  ⟨rfl, rfl, rfl,
    (by decide :
      noContent ≠ xmlResponse (saySomething "Invalid selection. Please press 1, 2, or 3.")),
    (by decide : noContent ≠ xmlResponse (saySomething "Invalid selection. Goodbye.")),
    (by decide : noContent ≠ xmlResponse (saySomething "Invalid selection. Goodbye."))⟩

/-- C9: unlike the three no-op steps, EmergencyRegion with missing
`dtmfDigits` does not return 204: it returns the 200 markup response whose
single action is the Say "Invalid selection. Please press 1, 2, or 3.". -/
theorem C9_emergency_region_missing_is_invalid_say (appUrl : String)
    (sessionId callerNumber : Option String) :
    emergency_region_selection appUrl none sessionId callerNumber =
      xmlResponse (saySomething "Invalid selection. Please press 1, 2, or 3.") ∧
    (emergency_region_selection appUrl none sessionId callerNumber).status = 200 ∧
    emergency_region_selection appUrl none sessionId callerNumber ≠ noContent ∧
    sCount (emergency_region_selection appUrl none sessionId callerNumber).body
      "<Say>Invalid selection. Please press 1, 2, or 3.</Say>" = 1 :=
  ⟨rfl, rfl,
    (by decide :
      xmlResponse (saySomething "Invalid selection. Please press 1, 2, or 3.") ≠ noContent),
    (by decide :
      sCount (xmlResponse (saySomething "Invalid selection. Please press 1, 2, or 3.")).body
        "<Say>Invalid selection. Please press 1, 2, or 3.</Say>" = 1)⟩

/-- C8: every step handler's response is fully determined by the step identity
and the caller input alone: two invocations differing only in `sessionId` and
`callerNumber` (and, for the recording step, only in those two fields) return
identical responses. -/
theorem C8_session_fields_do_not_affect_output (appUrl : String)
    (d recordingUrl durationInSeconds : Option String)
    (sid1 cid1 sid2 cid2 : Option String) :
    voice_entry appUrl sid1 cid1 = voice_entry appUrl sid2 cid2 ∧
    language_selection appUrl d sid1 cid1 = language_selection appUrl d sid2 cid2 ∧
    service_selection appUrl d sid1 cid1 = service_selection appUrl d sid2 cid2 ∧
    hunger_region_selection d sid1 cid1 = hunger_region_selection d sid2 cid2 ∧
    water_region_selection d sid1 cid1 = water_region_selection d sid2 cid2 ∧
    emergency_region_selection appUrl d sid1 cid1 =
      emergency_region_selection appUrl d sid2 cid2 ∧
    emergency_recording_handler recordingUrl durationInSeconds sid1 cid1 =
      emergency_recording_handler recordingUrl durationInSeconds sid2 cid2 :=
  ⟨rfl, rfl, rfl, rfl, rfl, rfl, rfl⟩

/-- C5: the Entry step (POST `/voice`) always returns a 200 `text/xml`
response whose body is the literal welcome greeting Say followed by a
CollectDigits action with `numDigits='1'`, `finishOnKey='#'`, `timeout='10'`
and `callbackUrl` equal to the configured base URL concatenated with
`/voice/language`, regardless of `sessionId` and `callerNumber`. -/
theorem C5_entry_always_greets (appUrl : String)
    (sessionId callerNumber : Option String) :
    (voice_entry appUrl sessionId callerNumber).status = 200 ∧
    (voice_entry appUrl sessionId callerNumber).mediaType = some "text/xml" ∧
    (voice_entry appUrl sessionId callerNumber).body =
      create_xml_response
        ("<Say>Welcome to Ongea Emergency Services! Press 1 for English or 2 for Swahili.</Say>" ++
          ("<CollectDigits timeout='10' finishOnKey='#' numDigits='1' callbackUrl='" ++
            (appUrl ++ "/voice/language") ++ "'/>")) := by
  refine ⟨rfl, rfl, ?_⟩
  simp only [voice_entry, xmlResponse, create_xml_response]
  simp [String.append_assoc]
  rw [append_split
    "<Say>Welcome to Ongea Emergency Services! Press 1 for English or 2 for Swahili.</Say>"
    "<CollectDigits timeout='10' finishOnKey='#' numDigits='1' callbackUrl='"
    "<Say>Welcome to Ongea Emergency Services! Press 1 for English or 2 for Swahili.</Say><CollectDigits timeout='10' finishOnKey='#' numDigits='1' callbackUrl='"
    rfl]

/-- C3: at the EmergencyRegion step, each input "1"/"2"/"3" produces a Say
whose text names the corresponding region (Nairobi/Turkana/Kiambu) followed by
a Record action with `maxLength='60'`, `playBeep='true'` and `callbackUrl`
equal to the base URL concatenated with `/emergency/recording`. -/
theorem C3_emergency_region_routes_to_recording (appUrl : String)
    (sessionId callerNumber : Option String) :
    emergency_region_selection appUrl (some "1") sessionId callerNumber =
      xmlResponse
        ("<Say>Emergency services for Nairobi region activated. Please describe your emergency in detail and press hash when finished.</Say>" ++
          ("<Record finishOnKey='#' maxLength='60' playBeep='true' callbackUrl='" ++
            (appUrl ++ "/emergency/recording") ++ "'/>")) ∧
    emergency_region_selection appUrl (some "2") sessionId callerNumber =
      xmlResponse
        ("<Say>Emergency services for Turkana region activated. Please describe your emergency in detail and press hash when finished.</Say>" ++
          ("<Record finishOnKey='#' maxLength='60' playBeep='true' callbackUrl='" ++
            (appUrl ++ "/emergency/recording") ++ "'/>")) ∧
    emergency_region_selection appUrl (some "3") sessionId callerNumber =
      xmlResponse
        ("<Say>Emergency services for Kiambu region activated. Please describe your emergency in detail and press hash when finished.</Say>" ++
          ("<Record finishOnKey='#' maxLength='60' playBeep='true' callbackUrl='" ++
            (appUrl ++ "/emergency/recording") ++ "'/>")) := by
  refine ⟨?_, ?_, ?_⟩ <;> rfl

/-- C7: the Diagnostic step (POST `/ongea`): missing input or the literal
"undefined" yields the 204 no-op; exactly "2545" yields the "Welcome Back" Say
plus a CollectDigits targeting the base URL concatenated with
`/emergency/region`; every other input yields the "not valid" Say. -/
theorem C7_diagnostic_code_gate (appUrl : String) :
    ongea_special appUrl none = noContent ∧
    ongea_special appUrl (some "undefined") = noContent ∧
    ongea_special appUrl (some "2545") =
      xmlResponse
        ("<Say>Welcome Back to Medicare Services.</Say>" ++
          ("<CollectDigits timeout='15' finishOnKey='#' callbackUrl='" ++
            (appUrl ++ "/emergency/region") ++ "'/>")) ∧
    sCount "<Say>Welcome Back to Medicare Services.</Say>" "Welcome Back" = 1 ∧
    (∀ s : String, s ≠ "2545" → s ≠ "undefined" →
      ongea_special appUrl (some s) =
        xmlResponse (saySomething "The code entered is not valid.")) := by
  refine ⟨rfl, rfl, rfl, by decide, ?_⟩
  intro s h1 h2
  unfold ongea_special
  rw [if_neg (by simp [h2]), if_neg (by simp [h1])]

/-- C7 witness: the theorem applied at the base URL "https://x.example" and
the concrete non-code input "9999". -/
theorem C7_diagnostic_code_gate_witness :
    ongea_special "https://x.example" (some "9999") =
      xmlResponse (saySomething "The code entered is not valid.") :=
  (C7_diagnostic_code_gate "https://x.example").2.2.2.2 "9999" (by decide) (by decide)

/-- C6: for every key of the hunger table and of the water table (the keys are
exactly "1","2","3"), the region handler answers with a Say whose text
contains both the region name associated with the key (Nairobi/Turkana/Kiambu)
and the category's responder phrase ("region office" for hunger,
"water department" for water). -/
theorem C6_region_table_texts (sessionId callerNumber : Option String) :
    hunger_region_responses.map Prod.fst = ["1", "2", "3"] ∧
    water_region_responses.map Prod.fst = ["1", "2", "3"] ∧
    (hunger_region_selection (some "1") sessionId callerNumber =
        xmlResponse (saySomething "Thank you. Nairobi region office has been notified about the hunger situation. They will contact you shortly.") ∧
      sCount "Thank you. Nairobi region office has been notified about the hunger situation. They will contact you shortly." "Nairobi" = 1 ∧
      sCount "Thank you. Nairobi region office has been notified about the hunger situation. They will contact you shortly." "region office" = 1) ∧
    (hunger_region_selection (some "2") sessionId callerNumber =
        xmlResponse (saySomething "Thank you. Turkana region office has been notified about the hunger situation. They will contact you shortly.") ∧
      sCount "Thank you. Turkana region office has been notified about the hunger situation. They will contact you shortly." "Turkana" = 1 ∧
      sCount "Thank you. Turkana region office has been notified about the hunger situation. They will contact you shortly." "region office" = 1) ∧
    (hunger_region_selection (some "3") sessionId callerNumber =
        xmlResponse (saySomething "Thank you. Kiambu region office has been notified about the hunger situation. They will contact you shortly.") ∧
      sCount "Thank you. Kiambu region office has been notified about the hunger situation. They will contact you shortly." "Kiambu" = 1 ∧
      sCount "Thank you. Kiambu region office has been notified about the hunger situation. They will contact you shortly." "region office" = 1) ∧
    (water_region_selection (some "1") sessionId callerNumber =
        xmlResponse (saySomething "Thank you. Nairobi water department has been notified about the water shortage. They will address this issue.") ∧
      sCount "Thank you. Nairobi water department has been notified about the water shortage. They will address this issue." "Nairobi" = 1 ∧
      sCount "Thank you. Nairobi water department has been notified about the water shortage. They will address this issue." "water department" = 1) ∧
    (water_region_selection (some "2") sessionId callerNumber =
        xmlResponse (saySomething "Thank you. Turkana water department has been notified about the water shortage. They will address this issue.") ∧
      sCount "Thank you. Turkana water department has been notified about the water shortage. They will address this issue." "Turkana" = 1 ∧
      sCount "Thank you. Turkana water department has been notified about the water shortage. They will address this issue." "water department" = 1) ∧
    (water_region_selection (some "3") sessionId callerNumber =
        xmlResponse (saySomething "Thank you. Kiambu water department has been notified about the water shortage. They will address this issue.") ∧
      sCount "Thank you. Kiambu water department has been notified about the water shortage. They will address this issue." "Kiambu" = 1 ∧
      sCount "Thank you. Kiambu water department has been notified about the water shortage. They will address this issue." "water department" = 1) :=
  ⟨rfl, rfl,
    ⟨rfl, by decide, by decide⟩, ⟨rfl, by decide, by decide⟩, ⟨rfl, by decide, by decide⟩,
    ⟨rfl, by decide, by decide⟩, ⟨rfl, by decide, by decide⟩, ⟨rfl, by decide, by decide⟩⟩

/-- C1 counterexample: at the Diagnostic step the present (non-missing,
non-empty) input "undefined" is outside the valid-input set ["2545"], yet the
handler returns the 204 no-op with an empty body and no Say action at all,
instead of the fixed invalid-selection Say. -/
theorem C1_counterexample :
    ("undefined" : String) ≠ "" ∧
    "undefined" ∉ validInputs Step.diagnostic ∧
    stepHandler "https://x.example" Step.diagnostic (some "undefined") none none =
      noContent ∧
    (stepHandler "https://x.example" Step.diagnostic (some "undefined") none none).status
      = 204 ∧
    sCount
      (stepHandler "https://x.example" Step.diagnostic (some "undefined") none none).body
      "<Say>" = 0 :=
  ⟨by decide, by decide, rfl, rfl, by decide⟩

/-- C1 (amended): for every step except Entry and EmergencyRecording, and for
every present, non-empty input outside the step's valid-input set — excluding,
at the Diagnostic step only, the literal "undefined", which that step treats
like missing input (204 no-op) — the response is the 200 markup response whose
body carries exactly one Say action with the step's fixed invalid-selection
text and no CollectDigits and no Record action. -/
theorem C1_invalid_input_says_fixed_text_and_halts (appUrl : String)
    (step : Step) (s : String) (sessionId callerNumber : Option String)
    (h0 : s ≠ "") (h1 : s ∉ validInputs step)
    (h2 : step = Step.diagnostic → s ≠ "undefined") :
    stepHandler appUrl step (some s) sessionId callerNumber =
      xmlResponse (saySomething (invalidText step)) ∧
    sCount (xmlResponse (saySomething (invalidText step))).body "<Say>" = 1 ∧
    sCount (xmlResponse (saySomething (invalidText step))).body
      ("<Say>" ++ invalidText step ++ "</Say>") = 1 ∧
    sCount (xmlResponse (saySomething (invalidText step))).body "<CollectDigits" = 0 ∧
    sCount (xmlResponse (saySomething (invalidText step))).body "<Record" = 0 := by
  cases step with
  | languageSelect =>
      simp only [validInputs] at h1
      simp at h1
      obtain ⟨e1, e2⟩ := h1
      refine ⟨?_, by decide, by decide, by decide, by decide⟩
      simp only [stepHandler, language_selection]
      rw [if_pos (Or.inr (Or.inr ⟨by simp [e1], by simp [e2]⟩))]
      rfl
  | serviceSelect =>
      simp only [validInputs] at h1
      simp at h1
      obtain ⟨e1, e2, e3⟩ := h1
      refine ⟨?_, by decide, by decide, by decide, by decide⟩
      simp only [stepHandler, service_selection]
      rw [if_neg (by simp [h0]), if_neg (by simp [e1]), if_neg (by simp [e2]),
        if_neg (by simp [e3])]
      rfl
  | hungerRegion =>
      simp only [validInputs] at h1
      simp at h1
      obtain ⟨e1, e2, e3⟩ := h1
      refine ⟨?_, by decide, by decide, by decide, by decide⟩
      have b1 : (s == "1") = false := beq_eq_false_iff_ne.mpr e1
      have b2 : (s == "2") = false := beq_eq_false_iff_ne.mpr e2
      have b3 : (s == "3") = false := beq_eq_false_iff_ne.mpr e3
      simp only [stepHandler, hunger_region_selection, handle_region_response]
      rw [if_neg (by simp [h0])]
      simp [dictGet, hunger_region_responses, List.lookup, b1, b2, b3, invalidText]
  | waterRegion =>
      simp only [validInputs] at h1
      simp at h1
      obtain ⟨e1, e2, e3⟩ := h1
      refine ⟨?_, by decide, by decide, by decide, by decide⟩
      have b1 : (s == "1") = false := beq_eq_false_iff_ne.mpr e1
      have b2 : (s == "2") = false := beq_eq_false_iff_ne.mpr e2
      have b3 : (s == "3") = false := beq_eq_false_iff_ne.mpr e3
      simp only [stepHandler, water_region_selection, handle_region_response]
      rw [if_neg (by simp [h0])]
      simp [dictGet, water_region_responses, List.lookup, b1, b2, b3, invalidText]
  | emergencyRegion =>
      simp only [validInputs] at h1
      simp at h1
      obtain ⟨e1, e2, e3⟩ := h1
      refine ⟨?_, by decide, by decide, by decide, by decide⟩
      simp only [stepHandler, emergency_region_selection]
      rw [if_neg (by simp [e1, e2, e3])]
      rfl
  | diagnostic =>
      simp only [validInputs] at h1
      simp at h1
      have hu : s ≠ "undefined" := h2 rfl
      refine ⟨?_, by decide, by decide, by decide, by decide⟩
      simp only [stepHandler, ongea_special]
      rw [if_neg (by simp [hu]), if_neg (by simp [h1])]
      rfl

/-- C1 witness: the amended theorem applied at the ServiceSelect step with the
concrete invalid input "7". -/
theorem C1_invalid_input_says_fixed_text_and_halts_witness :
    stepHandler "https://x.example" Step.serviceSelect (some "7") none none =
      xmlResponse (saySomething (invalidText Step.serviceSelect)) ∧
    sCount (xmlResponse (saySomething (invalidText Step.serviceSelect))).body
      "<Say>" = 1 ∧
    sCount (xmlResponse (saySomething (invalidText Step.serviceSelect))).body
      ("<Say>" ++ invalidText Step.serviceSelect ++ "</Say>") = 1 ∧
    sCount (xmlResponse (saySomething (invalidText Step.serviceSelect))).body
      "<CollectDigits" = 0 ∧
    sCount (xmlResponse (saySomething (invalidText Step.serviceSelect))).body
      "<Record" = 0 :=
  C1_invalid_input_says_fixed_text_and_halts "https://x.example" Step.serviceSelect "7"
    none none (by decide) (by decide) (by decide)

/-- C4 counterexample: the Action Formatter does not escape free text.  A
speech string containing markup-significant characters is interpolated
verbatim: '<' is not encoded (no "&lt;", no "&" at all in the output), and a
crafted speech string closes the Say tag and injects further action tags
(a Reject via `saySomething`, a Hangup via `ongea`), so the text breaks out of
its tag. -/
theorem C4_counterexample :
    saySomething "</Say><Reject/><Say>" = "<Say></Say><Reject/><Say></Say>" ∧
    sCount (saySomething "</Say><Reject/><Say>") "<Reject/>" = 1 ∧
    saySomething "<" = "<Say><</Say>" ∧
    sCount (saySomething "<") "&lt;" = 0 ∧
    sCount (saySomething "<") "&" = 0 ∧
    sCount (saySomething "<") "<" = 3 ∧
    sCount (ongea "</Say><Hangup/><Say>" "#" 10 "u") "<Hangup/>" = 1 :=
  ⟨rfl, by decide, rfl, by decide, by decide, by decide, by decide⟩

/-- C4 (amended): the Action Formatter performs no escaping or encoding of
free text: `saySomething`, `ongea` and `recordAudio` interpolate the supplied
text verbatim into the emitted fragment, so markup-significant characters pass
through raw and, as the counterexample shows, can break out of the Say tag. -/
theorem C4_formatter_interpolates_verbatim
    (s finishOnKey callbackUrl : String) (timeout : Nat) :
    saySomething s = "<Say>" ++ s ++ "</Say>" ∧
    ongea s finishOnKey timeout callbackUrl =
      ("<Say>" ++ s ++ "</Say>") ++
        ("<CollectDigits timeout='" ++ toString timeout ++ "' finishOnKey='" ++
          finishOnKey ++ "' callbackUrl='" ++ callbackUrl ++ "'/>") ∧
    recordAudio s callbackUrl =
      ("<Say>" ++ s ++ "</Say>") ++
        ("<Record finishOnKey='#' maxLength='60' playBeep='true' callbackUrl='" ++
          callbackUrl ++ "'/>") :=
  ⟨rfl, rfl, rfl⟩
